import Mathlib

/-!
Verification of the HoneyBadger Vanguard ingestion API server against its
specification.  The definitions below are a shallow embedding of the
server source: the Express middleware and route handlers become pure Lean
functions, the PostgreSQL tables become lists of row structures, awaited
side effects become explicit event traces in execution order, and the
external bcrypt library is modelled by an abstract hash constructor with
its documented compare contract.
-/

/- ============================================================
   JavaScript value helpers (truthiness, string or-chains, replace)
   ============================================================ -/

/-- Model of a JS string-or-undefined value being falsy: undefined or the
empty string. -/
def isFalsy : Option String → Bool
  | none => true
  | some s => s == ""

/-- Model of the JS expression a || b on string-or-undefined values: yields
b when a is undefined or empty. -/
def jsOr (a b : Option String) : Option String :=
  match a with
  | some s => if s == "" then b else some s
  | none => b

/-- Model of a JS truthiness test on an optional query-string parameter. -/
def jsTruthyStr : Option String → Bool
  | none => false
  | some s => !(s == "")

/-- Replace the first occurrence of pat by repl in a character list, as JS
String.prototype.replace does with a string pattern. -/
def replaceFirstChars (pat repl : List Char) : List Char → List Char
  | [] => if pat.isEmpty then repl else []
  | c :: rest =>
    if pat.isPrefixOf (c :: rest) then repl ++ (c :: rest).drop pat.length
    else c :: replaceFirstChars pat repl rest

/-- Model of the JS call s.replace(pat, repl) with a string pattern: only
the first occurrence is replaced. -/
def jsReplaceFirst (s pat repl : String) : String :=
  String.mk (replaceFirstChars pat.data repl.data s.data)

/- ============================================================
   bcrypt model (external npm library, not repository code)
   ============================================================ -/

/-- Model of bcrypt.hash: an injective encoding of the secret carrying the
algorithm/cost prefix.  No valid bcrypt hash is the empty string. -/
def bcryptHash (secret : String) : String :=
  "$2b$12$" ++ secret

/-- Model of bcrypt.compare(presented, stored): succeeds exactly when the
stored string is the bcrypt hash of the presented secret; in particular it
is false whenever stored is the empty string. -/
def bcryptCompare (presented stored : String) : Bool :=
  stored == bcryptHash presented

/- ============================================================
   Credential store (api_keys table) and provisioning CLI
   ============================================================ -/

/-- Row of the api_keys table (schema: id, key_hash NOT NULL UNIQUE, name,
is_active, last_used_at). -/
structure ApiKeyRow where
  id : Nat
  key_hash : String
  name : String
  is_active : Bool
  last_used_at : Option Nat
deriving Repr, DecidableEq

/-- generateApiKey from the key-generation CLI: INSERT INTO api_keys
(key_hash, name, is_active) VALUES (bcrypt hash of the secret, name, TRUE). -/
def generateApiKey (store : List ApiKeyRow) (secret keyName : String) (newId : Nat) :
    List ApiKeyRow :=
  store ++ [{ id := newId, key_hash := bcryptHash secret, name := keyName,
              is_active := true, last_used_at := none }]

/-- Shape of a row returned by the middleware query
SELECT id, name, is_active FROM api_keys WHERE is_active = TRUE.
Only the three selected columns are present on the returned object. -/
structure FetchedKeyRow where
  id : Nat
  name : String
  is_active : Bool
deriving Repr, DecidableEq

/-- The middleware SELECT: filters active rows and projects the three
selected columns. -/
def selectActiveKeys (store : List ApiKeyRow) : List FetchedKeyRow :=
  (store.filter (fun r => r.is_active)).map
    (fun r => { id := r.id, name := r.name, is_active := r.is_active })

/-- The JS expression row.key_hash || '' on a fetched row: the SELECT list
does not include key_hash, so the property is undefined and the expression
evaluates to the empty string for every row. -/
def fetchedKeyHash (_r : FetchedKeyRow) : String := ""

/-- Awaited operations of the authentication middleware, in the order their
promises resolve before control proceeds. -/
inductive AuthEvent where
  | storeRead
  | hashCompare (presented stored : String)
  | touchWrite (id : Nat)
  | next
deriving Repr, DecidableEq

/-- Outcome of the authentication middleware: a 401 JSON error response, or
control passed to the route handler with the matched key id. -/
inductive AuthOutcome where
  | fail (status : Nat) (error : String)
  | proceed (keyId : Nat)
deriving Repr, DecidableEq

/-- Presented-secret extraction:
req.headers x-api-key || req.headers authorization ?.replace(Bearer , ). -/
def extractApiKey (xApiKey authorization : Option String) : Option String :=
  jsOr xApiKey (authorization.map (fun a => jsReplaceFirst a ("Bearer ") ("")))

/-- The for-loop over the fetched rows: await bcrypt.compare against each
row, breaking at the first match.  Returns the matched row (if any) and the
comparison events in execution order. -/
def scanKeys (compare : String → String → Bool) (apiKey : String) :
    List FetchedKeyRow → Option FetchedKeyRow × List AuthEvent
  | [] => (none, [])
  | r :: rest =>
    if compare apiKey (fetchedKeyHash r) then
      (some r, [AuthEvent.hashCompare apiKey (fetchedKeyHash r)])
    else
      let tail := scanKeys compare apiKey rest
      (tail.1, AuthEvent.hashCompare apiKey (fetchedKeyHash r) :: tail.2)

/-- Body of the try block of authenticateApiKey once a non-falsy key was
extracted: awaited SELECT, comparison loop, then on a match an awaited
UPDATE of last_used_at followed by next(). -/
def authScan (compare : String → String → Bool) (store : List ApiKeyRow)
    (apiKey : String) : AuthOutcome × List AuthEvent :=
  match scanKeys compare apiKey (selectActiveKeys store) with
  | (none, evs) =>
      (AuthOutcome.fail 401 ("Invalid API key"), AuthEvent.storeRead :: evs)
  | (some r, evs) =>
      (AuthOutcome.proceed r.id,
       (AuthEvent.storeRead :: evs) ++ [AuthEvent.touchWrite r.id, AuthEvent.next])

/-- authenticateApiKey middleware.  The compare parameter is the bcrypt
library function (modelled by bcryptCompare); the second component of the
result is the trace of awaited operations in the order they completed. -/
def authenticateApiKey (compare : String → String → Bool) (store : List ApiKeyRow)
    (xApiKey authorization : Option String) : AuthOutcome × List AuthEvent :=
  if isFalsy (extractApiKey xApiKey authorization) then
    (AuthOutcome.fail 401 ("API key required"), [])
  else
    authScan compare store ((extractApiKey xApiKey authorization).getD (""))

/-- True when a last-used touch write completes before control passes to
the downstream handler, i.e. the response path waited for the touch. -/
def isNextEvent : AuthEvent → Bool
  | AuthEvent.next => true
  | _ => false

/-- Recognizer for the last-used touch write event. -/
def isTouchEvent : AuthEvent → Bool
  | AuthEvent.touchWrite _ => true
  | _ => false

/-- The trace records a touch write strictly before the next() event. -/
def waitsForTouch (evs : List AuthEvent) : Bool :=
  (evs.takeWhile (fun e => !isNextEvent e)).any isTouchEvent

/- ============================================================
   Rate limiter (express-rate-limit with standardHeaders: true)
   ============================================================ -/

/-- HTTP response shape: status code, the error string of the JSON body,
and response headers. -/
structure Response where
  status : Nat
  body : String
  headers : List (String × String)
deriving Repr, DecidableEq

/-- The rejection response sent by the limiter middleware: status 429, the
configured message body, and the draft standard RateLimit headers (limit,
remaining, reset seconds) emitted because standardHeaders is enabled and
legacyHeaders disabled. -/
def limiterRejection (maxReq used resetSeconds : Nat) : Response :=
  { status := 429
  , body := "Too many requests, please try again later"
  , headers :=
      [ (("RateLimit-Limit"), toString maxReq)
      , (("RateLimit-Remaining"), toString (maxReq - used))
      , (("RateLimit-Reset"), toString resetSeconds) ] }

/-- The limiter middleware decision for a request that is the used-th hit
of its window: rejects with the uniform 429 response once the hit count
exceeds the configured maximum. -/
def limiterCheck (maxReq used resetSeconds : Nat) : Option Response :=
  if maxReq < used then some (limiterRejection maxReq used resetSeconds) else none

/- ============================================================
   Agent registry (agents table) and beacon handler
   ============================================================ -/

/-- Row of the agents table. metadata holds the JSONB document as the text
produced by JSON.stringify (opaque here). -/
structure AgentRow where
  agent_id : String
  hostname : Option String
  platform : Option String
  version : Option String
  ip_address : Option String
  metadata : String
  first_seen : Nat
  last_seen : Nat
  is_active : Bool
deriving Repr, DecidableEq

/-- Validated beacon request body: agent_id required, the rest optional;
metadata is the serialized document when present. -/
structure BeaconBody where
  agent_id : Option String
  hostname : Option String
  platform : Option String
  version : Option String
  metadata : Option String
deriving Repr, DecidableEq

/-- Fields written by the ON CONFLICT DO UPDATE branch of the beacon
upsert: hostname, platform, version, ip_address, metadata, last_seen, and
is_active = TRUE.  agent_id and first_seen are not assigned. -/
def updateAgentRow (b : BeaconBody) (ip : String) (now : Nat) (r : AgentRow) : AgentRow :=
  { r with hostname := b.hostname, platform := b.platform, version := b.version,
           ip_address := some ip, metadata := b.metadata.getD ("\x7b\x7d"),
           last_seen := now, is_active := true }

/-- Row created by the INSERT branch of the beacon upsert: first_seen and
last_seen are CURRENT_TIMESTAMP and is_active takes the schema default
TRUE. -/
def newAgentRow (aid : String) (b : BeaconBody) (ip : String) (now : Nat) : AgentRow :=
  { agent_id := aid, hostname := b.hostname, platform := b.platform,
    version := b.version, ip_address := some ip,
    metadata := b.metadata.getD ("\x7b\x7d"),
    first_seen := now, last_seen := now, is_active := true }

/-- INSERT INTO agents ... ON CONFLICT (agent_id) DO UPDATE: update the
conflicting row when the identifier is present, insert otherwise. -/
def upsertAgent (reg : List AgentRow) (aid : String) (b : BeaconBody) (ip : String)
    (now : Nat) : List AgentRow :=
  if reg.any (fun r => r.agent_id == aid) then
    reg.map (fun r => if r.agent_id == aid then updateAgentRow b ip now r else r)
  else
    reg ++ [newAgentRow aid b ip now]

/-- POST /api/v1/beacon: Joi validation (agent_id required) then the agent
upsert.  Returns the response status and the new registry state. -/
def beaconHandler (reg : List AgentRow) (b : BeaconBody) (ip : String) (now : Nat) :
    Nat × List AgentRow :=
  match b.agent_id with
  | none => (400, reg)
  | some aid => (200, upsertAgent reg aid b ip now)

/-- Descending order on agents by last_seen (ORDER BY last_seen DESC). -/
def agentGE (a b : AgentRow) : Prop := b.last_seen ≤ a.last_seen

instance : DecidableRel agentGE := fun a b => Nat.decLe b.last_seen a.last_seen

instance : IsTotal AgentRow agentGE := ⟨fun a b => Nat.le_total b.last_seen a.last_seen⟩

instance : IsTrans AgentRow agentGE := ⟨fun _ _ _ hab hbc => Nat.le_trans hbc hab⟩

/-- GET /api/v1/agents: active_only defaults to the string true; only that
exact string selects the is_active filter; rows ordered by last_seen
descending. -/
def listAgents (reg : List AgentRow) (active_only : Option String) : List AgentRow :=
  let a := active_only.getD ("true")
  let rows := if a == "true" then reg.filter (fun r => r.is_active) else reg
  List.insertionSort agentGE rows

/- ============================================================
   Result store (results table), submission and query handlers
   ============================================================ -/

/-- Row of the results table.  data and metadata hold the serialized JSONB
documents (opaque here); severity is nullable. -/
structure ResultRow where
  id : Nat
  agent_id : String
  module : String
  target : Option String
  result_type : Option String
  data : String
  timestamp : Nat
  severity : Option String
  metadata : String
deriving Repr, DecidableEq

/-- Raw result-submission body before Joi validation; none marks an absent
field. -/
structure ResultBody where
  agent_id : Option String
  module : Option String
  target : Option String
  result_type : Option String
  data : Option String
  severity : Option String
  metadata : Option String
deriving Repr, DecidableEq

/-- Joi schema for results: agent_id, module and data are required and
severity, when present, must be one of low, medium, high, critical.
Returns the first violation message, or none when the body is valid. -/
def validateResult (b : ResultBody) : Option String :=
  match b.agent_id with
  | none => some ("agent_id is required")
  | some _ =>
    match b.module with
    | none => some ("module is required")
    | some _ =>
      match b.data with
      | none => some ("data is required")
      | some _ =>
        match b.severity with
        | none => none
        | some s =>
          if s == "low" || s == "medium" || s == "high" || s == "critical" then none
          else some ("severity must be one of low, medium, high, critical")

/-- POST /api/v1/results: on a validation error respond 400 and leave the
store unchanged; otherwise INSERT the row with a server-assigned id and
timestamp and respond 201. -/
def submitResultHandler (store : List ResultRow) (b : ResultBody) (newId now : Nat) :
    Nat × List ResultRow :=
  match validateResult b with
  | some _ => (400, store)
  | none =>
      (201, store ++
        [{ id := newId, agent_id := b.agent_id.getD (""), module := b.module.getD (""),
           target := b.target, result_type := b.result_type, data := b.data.getD (""),
           timestamp := now, severity := b.severity, metadata := b.metadata.getD ("\x7b\x7d") }])

/-- Descending order on results by timestamp (ORDER BY timestamp DESC). -/
def resultGE (a b : ResultRow) : Prop := b.timestamp ≤ a.timestamp

instance : DecidableRel resultGE := fun a b => Nat.decLe b.timestamp a.timestamp

instance : IsTotal ResultRow resultGE := ⟨fun a b => Nat.le_total b.timestamp a.timestamp⟩

instance : IsTrans ResultRow resultGE := ⟨fun _ _ _ hab hbc => Nat.le_trans hbc hab⟩

/-- WHERE clause built when agent_id is supplied and truthy. -/
def agentIdFilter (agentId : Option String) (l : List ResultRow) : List ResultRow :=
  if jsTruthyStr agentId then l.filter (fun r => some r.agent_id == agentId) else l

/-- WHERE clause built when module is supplied and truthy. -/
def moduleFilter (moduleName : Option String) (l : List ResultRow) : List ResultRow :=
  if jsTruthyStr moduleName then l.filter (fun r => some r.module == moduleName) else l

/-- WHERE clause built when severity is supplied and truthy: keeps rows
whose severity column equals the supplied value. -/
def sevFilter (severity : Option String) (l : List ResultRow) : List ResultRow :=
  if jsTruthyStr severity then l.filter (fun r => r.severity == severity) else l

/-- WHERE clause built when since is supplied: timestamp at least since. -/
def sinceFilter (since : Option Nat) (l : List ResultRow) : List ResultRow :=
  match since with
  | some t => l.filter (fun r => decide (t ≤ r.timestamp))
  | none => l

/-- The filtered result set of GET /api/v1/results before ordering and
pagination: the optional filters combined by AND. -/
def filteredResults (store : List ResultRow) (agentId moduleName severity : Option String)
    (since : Option Nat) : List ResultRow :=
  sinceFilter since (sevFilter severity (moduleFilter moduleName (agentIdFilter agentId store)))

/-- GET /api/v1/results: filters, ORDER BY timestamp DESC, then OFFSET
(default 0) and LIMIT (default 100). -/
def queryResults (store : List ResultRow) (agentId moduleName severity : Option String)
    (since : Option Nat) (limit offset : Option Nat) : List ResultRow :=
  ((List.insertionSort resultGE
      (filteredResults store agentId moduleName severity since)).drop
        (offset.getD 0)).take (limit.getD 100)

/- ============================================================
   Claim C1 (credential verification, code bug)
   ============================================================ -/

/-- C1: the spec requires that presenting an exactly provisioned, active
secret succeeds.  The middleware SELECT omits the key_hash column, so
bcrypt.compare runs against the empty string for every row and no presented
secret can ever match: here a freshly provisioned active key, presented
verbatim in the X-API-Key header, is rejected with 401 Invalid API key. -/
theorem provisioned_secret_rejected_by_auth :
    (authenticateApiKey bcryptCompare
        (generateApiKey [] ("hbv_0123abcd") ("Primary Production Key") 1)
        (some ("hbv_0123abcd")) none).1 =
      AuthOutcome.fail 401 ("Invalid API key") := by decide

/- ============================================================
   Claim C2 (missing headers fail fast)
   ============================================================ -/

/-- C2: a request carrying neither the X-API-Key header nor an
Authorization header is rejected with 401 API key required, and the trace
of awaited operations is empty: no credential-store read and no hash
comparison is performed. -/
theorem missing_headers_fail_fast (compare : String → String → Bool)
    (store : List ApiKeyRow) :
    authenticateApiKey compare store none none =
      (AuthOutcome.fail 401 ("API key required"), []) := rfl

/- ============================================================
   Claim C4 (result submission without data)
   ============================================================ -/

/-- C4: a result-submission body lacking the data field fails Joi
validation, the handler responds 400, and the result store is returned
unchanged. -/
theorem missing_data_rejected (store : List ResultRow) (b : ResultBody)
    (newId now : Nat) (h : b.data = none) :
    submitResultHandler store b newId now = (400, store) := by
  unfold submitResultHandler validateResult
  rw [h]
  cases b.agent_id <;> cases b.module <;> rfl

/-- C4 witness: concrete body with agent_id and module present but data
absent is rejected and an empty store stays empty. -/
theorem missing_data_rejected_witness :
    submitResultHandler []
      { agent_id := some ("a1"), module := some ("port-scan"), target := none,
        result_type := none, data := none, severity := some ("high"),
        metadata := none } 1 7 = (400, []) :=
  missing_data_rejected [] _ 1 7 rfl

/- ============================================================
   Claim C6 (default limit 100)
   ============================================================ -/

/-- C6: when the caller omits the limit parameter the handler defaults it
to 100, so the returned sequence never exceeds 100 rows and the query is
the same as one with an explicit limit of 100; limit and offset are
non-negative integers by type. -/
theorem query_default_limit (store : List ResultRow)
    (agentId moduleName severity : Option String) (since : Option Nat)
    (offset : Option Nat) :
    (queryResults store agentId moduleName severity since none offset).length ≤ 100 ∧
    queryResults store agentId moduleName severity since none offset =
      queryResults store agentId moduleName severity since (some 100) offset := by
  constructor
  · exact List.length_take_le _ _
  · rfl

/- ============================================================
   Claim C7 (rate-limit rejection vs auth rejection)
   ============================================================ -/

/-- C7 counterexample: the claim says an observer cannot tell from the
response body which check failed, but the limiter rejection body differs
from both authentication rejection bodies (and the statuses differ too),
so the two rejections are distinguishable. -/
theorem limiter_vs_auth_distinguishable :
    (authenticateApiKey bcryptCompare [] none none).1 =
        AuthOutcome.fail 401 ("API key required") ∧
    (limiterRejection 100 101 30).body ≠ ("API key required") ∧
    (limiterRejection 100 101 30).body ≠ ("Invalid API key") ∧
    (limiterRejection 100 101 30).status ≠ 401 := by decide

/-- C7 amended: every rate-limited rejection is the single uniform 429
response carrying the standard RateLimit-Limit, RateLimit-Remaining and
RateLimit-Reset headers, but it is distinguishable from an auth rejection:
its body differs from both auth error bodies and its status is not 401. -/
theorem limiter_rejection_uniform (maxReq used resetSeconds : Nat)
    (h : maxReq < used) :
    limiterCheck maxReq used resetSeconds =
      some (limiterRejection maxReq used resetSeconds) ∧
    (limiterRejection maxReq used resetSeconds).status = 429 ∧
    (limiterRejection maxReq used resetSeconds).body =
      ("Too many requests, please try again later") ∧
    (limiterRejection maxReq used resetSeconds).headers.map Prod.fst =
      [("RateLimit-Limit"), ("RateLimit-Remaining"), ("RateLimit-Reset")] ∧
    (limiterRejection maxReq used resetSeconds).body ≠ ("API key required") ∧
    (limiterRejection maxReq used resetSeconds).body ≠ ("Invalid API key") ∧
    (limiterRejection maxReq used resetSeconds).status ≠ 401 := by
  refine ⟨?_, rfl, rfl, rfl, ?_, ?_, ?_⟩
  · unfold limiterCheck
    rw [if_pos h]
  · show ("Too many requests, please try again later") ≠ ("API key required")
    decide
  · show ("Too many requests, please try again later") ≠ ("Invalid API key")
    decide
  · show (429 : Nat) ≠ 401
    decide

/-- C7 witness: the 101st request in a window of at most 100 is rejected
with the uniform limiter response. -/
theorem limiter_rejection_uniform_witness :
    limiterCheck 100 101 30 = some (limiterRejection 100 101 30) ∧
    (limiterRejection 100 101 30).status = 429 ∧
    (limiterRejection 100 101 30).body =
      ("Too many requests, please try again later") ∧
    (limiterRejection 100 101 30).headers.map Prod.fst =
      [("RateLimit-Limit"), ("RateLimit-Remaining"), ("RateLimit-Reset")] ∧
    (limiterRejection 100 101 30).body ≠ ("API key required") ∧
    (limiterRejection 100 101 30).body ≠ ("Invalid API key") ∧
    (limiterRejection 100 101 30).status ≠ 401 :=
  limiter_rejection_uniform 100 101 30 (by decide)

/- ============================================================
   Claim C8 (last-used touch is awaited, not asynchronous)
   ============================================================ -/

/-- The comparison loop only ever records hash-comparison events, so no
next() event occurs inside its trace. -/
theorem scanKeys_events_not_next (compare : String → String → Bool) (apiKey : String) :
    ∀ (l : List FetchedKeyRow), ∀ e ∈ (scanKeys compare apiKey l).2,
      isNextEvent e = false := by
  intro l
  induction l with
  | nil =>
    intro e he
    simp [scanKeys] at he
  | cons r rest ih =>
    intro e he
    by_cases hc : compare apiKey (fetchedKeyHash r) = true
    · simp [scanKeys, hc] at he
      subst he
      rfl
    · simp [scanKeys, hc] at he
      rcases he with he | he
      · subst he
        rfl
      · exact ih e he

/-- Appending a touch write followed by next() to a trace free of next()
events yields a trace in which the touch completes before next(). -/
theorem waitsForTouch_append (i : Nat) :
    ∀ (l : List AuthEvent), (∀ e ∈ l, isNextEvent e = false) →
      waitsForTouch (l ++ [AuthEvent.touchWrite i, AuthEvent.next]) = true := by
  intro l
  induction l with
  | nil =>
    intro _
    rfl
  | cons e t ih =>
    intro hl
    have he : isNextEvent e = false := hl e (List.mem_cons_self e t)
    have ht := ih (fun x hx => hl x (List.mem_cons_of_mem e hx))
    simp only [waitsForTouch, List.cons_append, List.takeWhile_cons, he,
      Bool.not_false, if_true, List.any_cons]
    simp only [waitsForTouch] at ht
    rw [ht]
    simp

/-- Whenever the scan branch of the middleware passes control onward, the
trace shows the touch write completing before next(). -/
theorem authScan_waits (compare : String → String → Bool) (store : List ApiKeyRow)
    (apiKey : String) (kid : Nat)
    (h : (authScan compare store apiKey).1 = AuthOutcome.proceed kid) :
    waitsForTouch (authScan compare store apiKey).2 = true := by
  unfold authScan at h ⊢
  split at h
  · simp at h
  · rename_i r evs heq
    show waitsForTouch
        ((AuthEvent.storeRead :: evs) ++ [AuthEvent.touchWrite r.id, AuthEvent.next]) = true
    apply waitsForTouch_append
    intro e he
    rcases List.mem_cons.mp he with he1 | he2
    · subst he1
      rfl
    · have hnn := scanKeys_events_not_next compare apiKey (selectActiveKeys store) e
      rw [heq] at hnn
      exact hnn he2

/-- C8 counterexample: instantiating the hash-comparison oracle so that a
stored credential matches, a successful verification run records the
last-used touch write strictly before next() in the awaited-operation
trace: the caller response does wait for the touch write, contradicting
the claimed asynchrony. -/
theorem touch_write_blocks_response :
    (authenticateApiKey (fun _ _ => true)
        [{ id := 1, key_hash := ("h1"), name := ("Primary"), is_active := true,
           last_used_at := none }] (some ("k")) none).1 = AuthOutcome.proceed 1 ∧
    waitsForTouch (authenticateApiKey (fun _ _ => true)
        [{ id := 1, key_hash := ("h1"), name := ("Primary"), is_active := true,
           last_used_at := none }] (some ("k")) none).2 = true := by decide

/-- C8 amended: for every successful credential verification the last-used
touch is recorded synchronously: the middleware awaits the touch write, so
its completion precedes next() in the trace and the caller response waits
for it. -/
theorem auth_success_waits_for_touch (compare : String → String → Bool)
    (store : List ApiKeyRow) (xApiKey authorization : Option String) (kid : Nat)
    (h : (authenticateApiKey compare store xApiKey authorization).1 =
      AuthOutcome.proceed kid) :
    waitsForTouch (authenticateApiKey compare store xApiKey authorization).2 = true := by
  unfold authenticateApiKey at h ⊢
  by_cases hf : isFalsy (extractApiKey xApiKey authorization) = true
  · rw [if_pos hf] at h
    simp at h
  · rw [if_neg hf] at h ⊢
    exact authScan_waits compare store _ kid h

/-- C8 witness: the amended theorem applied to a concrete matching run. -/
theorem auth_success_waits_for_touch_witness :
    waitsForTouch (authenticateApiKey (fun _ _ => true)
        [{ id := 2, key_hash := ("h2"), name := ("Secondary"), is_active := true,
           last_used_at := none }] (some ("k2")) none).2 = true :=
  auth_success_waits_for_touch (fun _ _ => true) _ (some ("k2")) none 2 (by decide)

/- ============================================================
   Claims C3 and C9 (agent upsert)
   ============================================================ -/

/-- Counting rows by identifier under a nodup-key registry: when the
identifier occurs, exactly one row carries it. -/
theorem filter_agent_id_length_of_nodup (reg : List AgentRow) (aid : String)
    (hnd : (reg.map (fun r => r.agent_id)).Nodup)
    (hmem : reg.any (fun r => r.agent_id == aid) = true) :
    (reg.filter (fun r => r.agent_id == aid)).length = 1 := by
  have h1 : (reg.filter (fun r => r.agent_id == aid)).length =
      reg.countP (fun r => r.agent_id == aid) :=
    (List.countP_eq_length_filter _ _).symm
  have h2 : (reg.map (fun r => r.agent_id)).countP (fun s => s == aid) =
      reg.countP (fun r => r.agent_id == aid) :=
    List.countP_map _ _ _
  have h3 : (reg.map (fun r => r.agent_id)).count aid =
      (reg.map (fun r => r.agent_id)).countP (fun s => s == aid) :=
    List.count_eq_countP _ _
  have hmem2 : aid ∈ reg.map (fun r => r.agent_id) := by
    rcases List.any_eq_true.mp hmem with ⟨r, hr, hbeq⟩
    exact List.mem_map.mpr ⟨r, hr, eq_of_beq hbeq⟩
  have hle := List.nodup_iff_count_le_one.mp hnd aid
  have hge := List.count_pos_iff.mpr hmem2
  rw [h1, ← h2, ← h3]
  omega

/-- The conflict-update branch of the upsert does not change the row's
identifier. -/
theorem upsert_branch_agent_id (b : BeaconBody) (ip : String) (now : Nat)
    (aid : String) (r : AgentRow) :
    (if r.agent_id == aid then updateAgentRow b ip now r else r).agent_id =
      r.agent_id := by
  by_cases hc : (r.agent_id == aid) = true
  · rw [if_pos hc]
    rfl
  · rw [if_neg hc]

/-- The registry key list after an upsert stays duplicate-free. -/
theorem upsert_keys_nodup (reg : List AgentRow) (aid : String) (b : BeaconBody)
    (ip : String) (now : Nat) (hnd : (reg.map (fun r => r.agent_id)).Nodup) :
    ((upsertAgent reg aid b ip now).map (fun r => r.agent_id)).Nodup := by
  unfold upsertAgent
  by_cases hmem : reg.any (fun r => r.agent_id == aid) = true
  · rw [if_pos hmem, List.map_map]
    simp only [Function.comp_def]
    rw [List.map_congr_left (fun r _ => upsert_branch_agent_id b ip now aid r)]
    exact hnd
  · rw [if_neg hmem, List.map_append]
    have hnotin : aid ∉ reg.map (fun r => r.agent_id) := by
      intro hmem2
      rcases List.mem_map.mp hmem2 with ⟨r, hr, hfr⟩
      exact hmem (List.any_eq_true.mpr ⟨r, hr, beq_iff_eq.mpr hfr⟩)
    simp [List.nodup_append, hnd, hnotin, newAgentRow]

/-- After one upsert under a nodup-key registry, exactly one row carries
the beaconed identifier. -/
theorem upsert_filter_length (reg : List AgentRow) (aid : String) (b : BeaconBody)
    (ip : String) (now : Nat) (hnd : (reg.map (fun r => r.agent_id)).Nodup) :
    ((upsertAgent reg aid b ip now).filter (fun r => r.agent_id == aid)).length = 1 := by
  unfold upsertAgent
  by_cases hmem : reg.any (fun r => r.agent_id == aid) = true
  · rw [if_pos hmem, List.filter_map, List.length_map]
    have hfc : ∀ r ∈ reg,
        ((fun x => x.agent_id == aid) ∘
          (fun x => if x.agent_id == aid then updateAgentRow b ip now x else x)) r =
        (r.agent_id == aid) := by
      intro r _
      show ((if r.agent_id == aid then updateAgentRow b ip now r else r).agent_id == aid) =
        (r.agent_id == aid)
      rw [upsert_branch_agent_id]
    rw [List.filter_congr hfc]
    exact filter_agent_id_length_of_nodup reg aid hnd hmem
  · rw [if_neg hmem, List.filter_append]
    have hnone : reg.filter (fun r => r.agent_id == aid) = [] := by
      rw [List.filter_eq_nil_iff]
      intro r hr hbeq
      exact hmem (List.any_eq_true.mpr ⟨r, hr, hbeq⟩)
    rw [hnone]
    simp [newAgentRow]

/-- Every row of the post-upsert registry carrying the beaconed identifier
holds exactly the beacon's attributes: descriptive fields and metadata from
the call (metadata replaced wholesale), last_seen set to the call time, and
is_active forced true. -/
theorem mem_upsert_fields (reg : List AgentRow) (aid : String) (b : BeaconBody)
    (ip : String) (now : Nat) :
    ∀ r ∈ upsertAgent reg aid b ip now, r.agent_id = aid →
      r.hostname = b.hostname ∧ r.platform = b.platform ∧ r.version = b.version ∧
      r.ip_address = some ip ∧ r.metadata = b.metadata.getD ("\x7b\x7d") ∧
      r.last_seen = now ∧ r.is_active = true := by
  intro r hr heq
  unfold upsertAgent at hr
  by_cases hmem : reg.any (fun x => x.agent_id == aid) = true
  · rw [if_pos hmem] at hr
    rcases List.mem_map.mp hr with ⟨r0, hr0, hfr⟩
    by_cases hc : (r0.agent_id == aid) = true
    · rw [if_pos hc] at hfr
      subst hfr
      exact ⟨rfl, rfl, rfl, rfl, rfl, rfl, rfl⟩
    · rw [if_neg hc] at hfr
      subst hfr
      exact absurd (beq_iff_eq.mpr heq) hc
  · rw [if_neg hmem] at hr
    rcases List.mem_append.mp hr with hrr | hrn
    · exact (hmem (List.any_eq_true.mpr ⟨r, hrr, beq_iff_eq.mpr heq⟩)).elim
    · have hrw : r = newAgentRow aid b ip now := List.mem_singleton.mp hrn
      subst hrw
      exact ⟨rfl, rfl, rfl, rfl, rfl, rfl, rfl⟩

/-- C3: two beacon calls with the same identifier and differing attributes
leave exactly one registry row for that identifier, and that row carries
the second call's descriptive fields, wholesale-replaced metadata,
last_seen from the second call, and is_active forced true. -/
theorem beacon_twice_one_row (reg : List AgentRow)
    (hnd : (reg.map (fun r => r.agent_id)).Nodup) (aid : String)
    (b1 b2 : BeaconBody) (ip1 ip2 : String) (t1 t2 : Nat)
    (h1 : b1.agent_id = some aid) (h2 : b2.agent_id = some aid) :
    (((beaconHandler (beaconHandler reg b1 ip1 t1).2 b2 ip2 t2).2).filter
        (fun r => r.agent_id == aid)).length = 1 ∧
    ∀ r ∈ (beaconHandler (beaconHandler reg b1 ip1 t1).2 b2 ip2 t2).2,
      r.agent_id = aid →
        r.hostname = b2.hostname ∧ r.platform = b2.platform ∧ r.version = b2.version ∧
        r.ip_address = some ip2 ∧ r.metadata = b2.metadata.getD ("\x7b\x7d") ∧
        r.last_seen = t2 ∧ r.is_active = true := by
  have e1 : (beaconHandler reg b1 ip1 t1).2 = upsertAgent reg aid b1 ip1 t1 := by
    unfold beaconHandler
    rw [h1]
  have e2 : ∀ reg2 : List AgentRow, (beaconHandler reg2 b2 ip2 t2).2 =
      upsertAgent reg2 aid b2 ip2 t2 := by
    intro reg2
    unfold beaconHandler
    rw [h2]
  rw [e1, e2]
  exact ⟨upsert_filter_length _ aid b2 ip2 t2 (upsert_keys_nodup reg aid b1 ip1 t1 hnd),
         mem_upsert_fields _ aid b2 ip2 t2⟩

/-- First beacon body used in concrete checks. -/
def demoBeacon1 : BeaconBody :=
  { agent_id := some ("a1"), hostname := some ("host1"), platform := some ("linux"),
    version := some ("1.0"), metadata := some ("mdoc1") }

/-- Second beacon body used in concrete checks, all attributes differing. -/
def demoBeacon2 : BeaconBody :=
  { agent_id := some ("a1"), hostname := some ("host2"), platform := some ("windows"),
    version := some ("2.0"), metadata := some ("mdoc2") }

/-- C3 witness: the theorem applied to an empty registry and two concrete
beacon calls. -/
theorem beacon_twice_one_row_witness :
    (((beaconHandler (beaconHandler [] demoBeacon1 ("10.0.0.1") 5).2
        demoBeacon2 ("10.0.0.2") 9).2).filter
        (fun r => r.agent_id == "a1")).length = 1 ∧
    ∀ r ∈ (beaconHandler (beaconHandler [] demoBeacon1 ("10.0.0.1") 5).2
        demoBeacon2 ("10.0.0.2") 9).2,
      r.agent_id = "a1" →
        r.hostname = demoBeacon2.hostname ∧ r.platform = demoBeacon2.platform ∧
        r.version = demoBeacon2.version ∧ r.ip_address = some ("10.0.0.2") ∧
        r.metadata = demoBeacon2.metadata.getD ("\x7b\x7d") ∧
        r.last_seen = 9 ∧ r.is_active = true :=
  beacon_twice_one_row [] (by decide) ("a1") demoBeacon1 demoBeacon2
    ("10.0.0.1") ("10.0.0.2") 5 9 rfl rfl

/-- C9: when the beaconed identifier is already present, the upsert takes
the conflict-update branch, which assigns neither agent_id nor first_seen:
the registry's identifier-to-first-seen association is left unchanged. -/
theorem beacon_update_keeps_first_seen (reg : List AgentRow) (aid : String)
    (b : BeaconBody) (ip : String) (now : Nat)
    (h : reg.any (fun r => r.agent_id == aid) = true) :
    (upsertAgent reg aid b ip now).map (fun r => (r.agent_id, r.first_seen)) =
      reg.map (fun r => (r.agent_id, r.first_seen)) := by
  unfold upsertAgent
  rw [if_pos h, List.map_map]
  apply List.map_congr_left
  intro r _
  show ((if r.agent_id == aid then updateAgentRow b ip now r else r).agent_id,
        (if r.agent_id == aid then updateAgentRow b ip now r else r).first_seen) =
      (r.agent_id, r.first_seen)
  by_cases hc : (r.agent_id == aid) = true
  · rw [if_pos hc]
    rfl
  · rw [if_neg hc]

/-- Registry row used in concrete checks, first seen at time 3. -/
def demoAgentRow : AgentRow :=
  { agent_id := ("a1"), hostname := none, platform := none, version := none,
    ip_address := none, metadata := ("m0"), first_seen := 3, last_seen := 3,
    is_active := true }

/-- C9 witness: a subsequent concrete beacon leaves the first-seen column
of the existing row untouched. -/
theorem beacon_update_keeps_first_seen_witness :
    (upsertAgent [demoAgentRow] ("a1") demoBeacon2 ("10.0.0.2") 9).map
        (fun r => (r.agent_id, r.first_seen)) =
      [demoAgentRow].map (fun r => (r.agent_id, r.first_seen)) :=
  beacon_update_keeps_first_seen [demoAgentRow] ("a1") demoBeacon2 ("10.0.0.2") 9
    (by decide)

/- ============================================================
   Claim C5 (query ordering and severity filter)
   ============================================================ -/

/-- Rows returned by the paginated query all come from the filtered set. -/
theorem mem_queryResults (store : List ResultRow)
    (agentId moduleName severity : Option String) (since : Option Nat)
    (limit offset : Option Nat) (r : ResultRow)
    (h : r ∈ queryResults store agentId moduleName severity since limit offset) :
    r ∈ filteredResults store agentId moduleName severity since := by
  unfold queryResults at h
  have h1 := List.mem_of_mem_take h
  have h2 := List.mem_of_mem_drop h1
  exact (List.perm_insertionSort resultGE _).mem_iff.mp h2

/-- The since clause only discards rows. -/
theorem mem_of_mem_sinceFilter (since : Option Nat) (l : List ResultRow)
    (r : ResultRow) (h : r ∈ sinceFilter since l) : r ∈ l := by
  cases since with
  | none => exact h
  | some t => exact (List.mem_filter.mp h).1

/-- Rows surviving a non-empty severity clause carry exactly that
severity. -/
theorem sev_of_mem_sevFilter (s : String) (hs : s ≠ "") (l : List ResultRow)
    (r : ResultRow) (h : r ∈ sevFilter (some s) l) : r.severity = some s := by
  unfold sevFilter at h
  have ht : jsTruthyStr (some s) = true := by
    simp [jsTruthyStr, hs]
  rw [if_pos ht] at h
  exact eq_of_beq (List.mem_filter.mp h).2

/-- C5: every query response is sorted by timestamp descending, and when a
non-empty severity filter is supplied every returned row carries exactly
that severity. -/
theorem query_sorted_and_severity (store : List ResultRow)
    (agentId moduleName severity : Option String) (since : Option Nat)
    (limit offset : Option Nat) :
    List.Sorted resultGE
      (queryResults store agentId moduleName severity since limit offset) ∧
    ∀ s : String, s ≠ "" → severity = some s →
      ∀ r ∈ queryResults store agentId moduleName severity since limit offset,
        r.severity = some s := by
  constructor
  · have hs := List.sorted_insertionSort resultGE
      (filteredResults store agentId moduleName severity since)
    have hsub : List.Sublist
        (((List.insertionSort resultGE
            (filteredResults store agentId moduleName severity since)).drop
              (offset.getD 0)).take (limit.getD 100))
        (List.insertionSort resultGE
          (filteredResults store agentId moduleName severity since)) :=
      (List.take_sublist _ _).trans (List.drop_sublist _ _)
    exact hs.sublist hsub
  · intro s hs hsev r hr
    subst hsev
    have h3 : r ∈ filteredResults store agentId moduleName (some s) since :=
      mem_queryResults store agentId moduleName (some s) since limit offset r hr
    have h4 : r ∈ sevFilter (some s)
        (moduleFilter moduleName (agentIdFilter agentId store)) :=
      mem_of_mem_sinceFilter since _ r h3
    exact sev_of_mem_sevFilter s hs _ r h4

/-- Result rows used in concrete checks: one high and one low severity. -/
def demoResults : List ResultRow :=
  [ { id := 1, agent_id := ("a1"), module := ("port-scan"), target := none,
      result_type := none, data := ("d1"), timestamp := 10,
      severity := some ("high"), metadata := ("m1") },
    { id := 2, agent_id := ("a1"), module := ("port-scan"), target := none,
      result_type := none, data := ("d2"), timestamp := 20,
      severity := some ("low"), metadata := ("m2") } ]

/-- C5 witness: a concrete query filtered by severity high is sorted and
contains only high rows. -/
theorem query_sorted_and_severity_witness :
    List.Sorted resultGE
      (queryResults demoResults none none (some ("high")) none none none) ∧
    ∀ r ∈ queryResults demoResults none none (some ("high")) none none none,
      r.severity = some ("high") :=
  ⟨(query_sorted_and_severity demoResults none none (some ("high")) none none none).1,
   fun r hr =>
     (query_sorted_and_severity demoResults none none (some ("high")) none none none).2
       ("high") (by decide) rfl r hr⟩

/- ============================================================
   Claim C10 (agent listing default and filter)
   ============================================================ -/

/-- C10: with active_only omitted the listing equals the active-only
listing (default true) and returns only active agents; any supplied value
other than the exact string true returns all agents (a permutation of the
whole registry); and every listing is sorted by last_seen descending. -/
theorem list_agents_filtering_and_order (reg : List AgentRow) :
    (∀ r ∈ listAgents reg none, r.is_active = true) ∧
    listAgents reg none = listAgents reg (some ("true")) ∧
    (∀ s : String, s ≠ "true" → List.Perm (listAgents reg (some s)) reg) ∧
    (∀ o : Option String, List.Sorted agentGE (listAgents reg o)) := by
  refine ⟨?_, rfl, ?_, ?_⟩
  · intro r hr
    have he : listAgents reg none =
        List.insertionSort agentGE (reg.filter (fun x => x.is_active)) := rfl
    rw [he] at hr
    have h1 := (List.perm_insertionSort agentGE
      (reg.filter (fun x => x.is_active))).mem_iff.mp hr
    exact (List.mem_filter.mp h1).2
  · intro s hs
    have hcond : (s == "true") = false := by
      simp [hs]
    have he : listAgents reg (some s) = List.insertionSort agentGE reg := by
      unfold listAgents
      simp [hcond]
    rw [he]
    exact List.perm_insertionSort agentGE reg
  · intro o
    exact List.sorted_insertionSort agentGE _

/-- Inactive registry row used in concrete checks. -/
def demoAgentRow2 : AgentRow :=
  { agent_id := ("a2"), hostname := none, platform := none, version := none,
    ip_address := none, metadata := ("m2"), first_seen := 1, last_seen := 7,
    is_active := false }

/-- Registry with one active and one inactive agent. -/
def demoAgents : List AgentRow := [demoAgentRow, demoAgentRow2]

/-- C10 witness: on a concrete registry the default listing keeps only
active agents, the value TRUE (not the exact lowercase string) yields all
agents, and the default listing is sorted. -/
theorem list_agents_filtering_and_order_witness :
    (∀ r ∈ listAgents demoAgents none, r.is_active = true) ∧
    List.Perm (listAgents demoAgents (some ("TRUE"))) demoAgents ∧
    List.Sorted agentGE (listAgents demoAgents none) :=
  ⟨(list_agents_filtering_and_order demoAgents).1,
   (list_agents_filtering_and_order demoAgents).2.2.1 ("TRUE") (by decide),
   (list_agents_filtering_and_order demoAgents).2.2.2 none⟩
